import Mathlib

/-!
Shallow embedding of `src/minimoog.py` (classes `MiniMoog` and `NoiseMaker`,
built on the pyo DSP engine).  The embedding has three layers:

* a Python-value model (`PyVal`, `pyEq`) for the dynamic `==` comparison that
  validates the `overload` constructor argument;
* a node-graph model: `NodeId` names each pyo object the file instantiates,
  `moogGraph` records, per node, its kind, audio inputs and `freq`/`res`/
  `mul`/`add` argument expressions exactly as written in `MiniMoog.__init__`
  and `NoiseMaker.__init__`; `miniMoogInit` records the instantiation order
  and the `ValueError` branch; lifecycle methods (`play`/`stop`/`out`) are
  modelled as functions on a running-state map `NodeId → Bool`, call for call;
* a value-level model over `ℚ` of the arithmetic the wiring performs
  (oscillator frequency expressions, filter-branch gains, the LFO `mul`/`add`
  convention, the noise crossfade).  pyo applies `mul` and `add` to a node's
  raw output as `raw * mul + add`; the `Selector` crossfade of the external
  engine is modelled as a linear blend, which at control values 0 and 1
  selects the first, respectively second, input alone, as the pyo
  documentation specifies.
-/

set_option autoImplicit false

namespace Minimoog

/-- Python runtime values that can reach the `overload` parameter: ints,
booleans, floats (modelled exactly as rationals) and strings. -/
inductive PyVal where
  | int : Int → PyVal
  | bool : Bool → PyVal
  | float : ℚ → PyVal
  | str : String → PyVal
deriving DecidableEq, Repr

/-- Numeric value of a Python object, when it has one: Python treats `True`
as `1` and `False` as `0` in numeric comparisons; strings have none. -/
def PyVal.toNum : PyVal → Option ℚ
  | .int n => some (n : ℚ)
  | .bool b => some (if b then 1 else 0)
  | .float q => some q
  | .str _ => none

/-- Python `==` restricted to the value types above: numeric cross-type
equality between ints, bools and floats; strings compare only to strings. -/
def pyEq (a b : PyVal) : Bool :=
  match a.toNum, b.toNum with
  | some x, some y => x == y
  | _, _ =>
    match a, b with
    | .str s, .str t => s == t
    | _, _ => false

/-- Identity of every pyo node instantiated by `MiniMoog.__init__` and, via
`NoiseMaker.__init__`, by the noise generator. -/
inductive NodeId where
  | notes
  | bend
  | osc1octave
  | osc2octave
  | osc3octave
  | osc2detune
  | osc3detune
  | onoff1
  | onoff2
  | onoff3
  | env
  | filterenv
  | contouramount
  | lfof
  | modwheel
  | lfoNode
  | osc1
  | osc2
  | osc3
  | noise1
  | noise2
  | selector
  | mixed1
  | lf1noadsr
  | lf1adsr
  | exitinput
  | mixed2
  | lf2adsr
  | lf2noadsr
  | output
deriving DecidableEq, Repr

/-- Nodes instantiated before the `overload` branch is reached, in the order
of `MiniMoog.__init__` lines 52-94 (`NoiseMaker(self._env)` instantiates
`noise1`, `noise2` and `selector`). -/
def preBranchNodes : List NodeId :=
  [.notes, .bend, .osc1octave, .osc2octave, .osc3octave,
   .osc2detune, .osc3detune, .onoff1, .onoff2, .onoff3,
   .env, .filterenv, .contouramount, .lfof, .modwheel, .lfoNode,
   .osc1, .osc2, .osc3, .noise1, .noise2, .selector,
   .mixed1, .lf1noadsr, .lf1adsr]

/-- The message of the `ValueError` raised by `MiniMoog.__init__`. -/
def overloadErrMsg : String :=
  "Overload value can only be a 0 (off, default) or a 1 (on)"

/-- Model of `MiniMoog.__init__(overload)`: the list of nodes instantiated
during the call, in order, and the error raised, if any.  The `overload`
check (`== 0`, `elif == 1`, `else raise`) runs only after all of
`preBranchNodes` have been instantiated. -/
def miniMoogInit (overload : PyVal) : List NodeId × Option String :=
  if pyEq overload (.int 0) then
    (preBranchNodes ++ [.output], none)
  else if pyEq overload (.int 1) then
    (preBranchNodes ++ [.exitinput, .mixed2, .lf2adsr, .lf2noadsr, .output], none)
  else
    (preBranchNodes, some overloadErrMsg)

/-- Nodes that produce or process audio (as opposed to plain control `Sig`
values): oscillators, envelopes, noise sources, mixers, filters. -/
def isAudioNode : NodeId → Bool
  | .env | .filterenv | .lfoNode | .osc1 | .osc2 | .osc3
  | .noise1 | .noise2 | .selector | .mixed1 | .lf1noadsr | .lf1adsr
  | .mixed2 | .lf2adsr | .lf2noadsr => true
  | _ => false

/-! ## Lifecycle model

The running/stopped state of the graph is a map `NodeId → Bool`.  Each
`play`/`stop`/`out` method is a function on states that issues exactly the
calls the source issues, in source order.  `super().play()` /
`super().stop()` / `super().out()` act on the instrument's base objects:
`NoiseMaker`'s base objects are the selector's, `MiniMoog`'s are the output
panner's. -/

/-- Running-state of every node. -/
def NState : Type := NodeId → Bool

/-- Effect of calling `.play()` on one node. -/
def play1 (n : NodeId) (s : NState) : NState :=
  fun m => if m = n then true else s m

/-- Effect of calling `.stop()` on one node. -/
def stop1 (n : NodeId) (s : NState) : NState :=
  fun m => if m = n then false else s m

/-- Play a list of nodes in order. -/
def playAll (ns : List NodeId) (s : NState) : NState :=
  ns.foldl (fun st n => play1 n st) s

/-- Stop a list of nodes in order. -/
def stopAll (ns : List NodeId) (s : NState) : NState :=
  ns.foldl (fun st n => stop1 n st) s

/-- Model of `NoiseMaker.play`: plays `_noise1`, `_noise2`, then
`super().play()` (the selector's base objects). -/
def noiseMakerPlay (s : NState) : NState :=
  play1 .selector (play1 .noise2 (play1 .noise1 s))

/-- Model of `NoiseMaker.stop`: the source calls `self._noise1.stop()`
twice and never stops `_noise2`, then `super().stop()`. -/
def noiseMakerStop (s : NState) : NState :=
  stop1 .selector (stop1 .noise1 (stop1 .noise1 s))

/-- Model of `NoiseMaker.out`: the source calls `self._noise1.play()`
twice and never plays `_noise2`, then `super().out()` (which starts the
selector's base objects on the output bus). -/
def noiseMakerOut (s : NState) : NState :=
  play1 .selector (play1 .noise1 (play1 .noise1 s))

/-- Model of `MiniMoog.play(dur, delay)` for a given overload flag, call for
call in source order (lines 151-180). -/
def miniMoogPlay (ov : Bool) (s : NState) : NState :=
  let s1 := playAll
    [.lfoNode, .modwheel, .lfof, .notes, .env, .filterenv, .contouramount,
     .bend, .osc1octave, .osc2octave, .osc3octave, .osc2detune, .osc3detune,
     .onoff1, .onoff2, .onoff3] s
  let s2 := noiseMakerPlay s1
  let s3 := playAll [.osc1, .osc2, .osc3, .mixed1, .lf1noadsr, .lf1adsr] s2
  let s4 := if ov then playAll [.exitinput, .mixed2, .lf2noadsr, .lf2adsr] s3 else s3
  play1 .output s4

/-- Model of `MiniMoog.stop` for a given overload flag, call for call in
source order (lines 182-214; the source stops the three octave signals
twice). -/
def miniMoogStop (ov : Bool) (s : NState) : NState :=
  let s1 := stopAll
    [.lfoNode, .modwheel, .lfof, .notes, .env, .filterenv, .contouramount,
     .bend, .osc1octave, .osc2octave, .osc3octave,
     .osc1octave, .osc2octave, .osc3octave, .osc2detune, .osc3detune,
     .onoff1, .onoff2, .onoff3] s
  let s2 := noiseMakerStop s1
  let s3 := stopAll [.osc1, .osc2, .osc3, .mixed1, .lf1noadsr, .lf1adsr] s2
  let s4 := if ov then stopAll [.exitinput, .mixed2, .lf2noadsr, .lf2adsr] s3 else s3
  stop1 .output s4

/-- Model of `MiniMoog.out` for a given overload flag, call for call in
source order (lines 216-248: it calls `.play` on every sub-node — playing
the three octave signals twice — including `self._noisegen.play`, then
`super().out()`). -/
def miniMoogOut (ov : Bool) (s : NState) : NState :=
  let s1 := playAll
    [.lfoNode, .modwheel, .lfof, .notes, .env, .filterenv, .contouramount,
     .bend, .osc1octave, .osc2octave, .osc3octave,
     .osc1octave, .osc2octave, .osc3octave, .osc2detune, .osc3detune,
     .onoff1, .onoff2, .onoff3] s
  let s2 := noiseMakerPlay s1
  let s3 := playAll [.osc1, .osc2, .osc3, .mixed1, .lf1noadsr, .lf1adsr] s2
  let s4 := if ov then playAll [.exitinput, .mixed2, .lf2noadsr, .lf2adsr] s3 else s3
  play1 .output s4

/-- Nodes owned by a `MiniMoog` instance for a given overload flag. -/
def ownedNodes (ov : Bool) : List NodeId :=
  preBranchNodes ++ (if ov then [.exitinput, .mixed2, .lf2adsr, .lf2noadsr] else []) ++ [.output]

/-- All-running state. -/
def allOn : NState := fun _ => true

/-- All-stopped state. -/
def allOff : NState := fun _ => false

/-! ## Node-graph model

Each pyo object the file creates is a node; the arguments it is constructed
with are expressions (`Ref`) over constants, other nodes, and the
`'pitch'`/`'velocity'` streams of the `Notein` node. -/

/-- Argument expression of a node constructor: a rational constant, another
node's output, one of `Notein`'s named streams, or an arithmetic combination,
written exactly as in the source. -/
inductive Ref where
  | c : ℚ → Ref
  | n : NodeId → Ref
  | pitchOf : NodeId → Ref
  | velocityOf : NodeId → Ref
  | mulR : Ref → Ref → Ref
  | addR : Ref → Ref → Ref
  | subR : Ref → Ref → Ref
deriving DecidableEq, Repr

/-- Kind of a pyo node: MIDI input, control signal (with its constructor
value), ADSR envelope (attack, decay, sustain, release), LFO (with its
waveform type), the two noise colors, selector, mixer, Moog low-pass filter,
panner. -/
inductive NKind where
  | noteinK : NKind
  | sigK : ℚ → NKind
  | adsrK : ℚ → ℚ → ℚ → ℚ → NKind
  | lfoWaveK : ℕ → NKind
  | whiteNoiseK : NKind
  | pinkNoiseK : NKind
  | selectorK : NKind
  | mixK : NKind
  | moogLPK : NKind
  | panK : NKind
deriving DecidableEq, Repr

/-- Constructor record of one node: its kind, its audio inputs (the mixer
and selector input lists, the filter and panner inputs, the envelope
trigger), and its `freq`, `res`, `mul`, `add` arguments where applicable. -/
structure NodeSpec where
  kind : NKind
  ins : List Ref
  freq : Option Ref
  res : Option Ref
  mul : Ref
  add : Ref
deriving DecidableEq, Repr

/-- Spec of `Sig(v)` with default `mul`/`add`. -/
def sigSpec (v : ℚ) : NodeSpec := ⟨.sigK v, [], none, none, .c 1, .c 0⟩

/-- Spec of `MidiAdsr(self._notes['velocity'], attack=.05, decay=.1,
sustain=.4, release=1)` — used for both `_env` and `_filterenv`, which are
two separate node instances. -/
def adsrSpec : NodeSpec :=
  ⟨.adsrK (1/20) (1/10) (2/5) 1, [.velocityOf .notes], none, none, .c 1, .c 0⟩

/-- Spec of a `MoogLP` with fixed cutoff 1000 and `mul=0.1*(1-contour)`:
`_ladderfilter1noadsr` / `_ladderfilter2noadsr`, fed by the given mixer. -/
def moogNoAdsrSpec (mixer : NodeId) : NodeSpec :=
  ⟨.moogLPK, [.n mixer], some (.c 1000), some (.c 0),
   .mulR (.c (1/10)) (.subR (.c 1) (.n .contouramount)), .c 0⟩

/-- Spec of a `MoogLP` with `freq=filterenv*2500` and `mul=1*contour`:
`_ladderfilter1withadsrenvelope` / `_ladderfilter2withadsrenvelope`. -/
def moogAdsrSpec (mixer : NodeId) : NodeSpec :=
  ⟨.moogLPK, [.n mixer], some (.mulR (.n .filterenv) (.c 2500)), some (.c 0),
   .mulR (.c 1) (.n .contouramount), .c 0⟩

/-- Spec of `Pan((noadsrFilter + adsrFilter) * self._LFO)`. -/
def panStageSpec (noadsrFilter adsrFilter : NodeId) : NodeSpec :=
  ⟨.panK, [.mulR (.addR (.n noadsrFilter) (.n adsrFilter)) (.n .lfoNode)],
   none, none, .c 1, .c 0⟩

/-- The signal graph built by `MiniMoog.__init__` for a given (valid)
overload flag: `moogGraph ov nid` is the constructor record of node `nid`,
or `none` when that node is not created under that flag.  Every expression
mirrors the corresponding source line. -/
def moogGraph (ov : Bool) : NodeId → Option NodeSpec
  | .notes => some ⟨.noteinK, [], none, none, .c 1, .c 0⟩
  | .bend => some (sigSpec 1)
  | .osc1octave => some (sigSpec 1)
  | .osc2octave => some (sigSpec 1)
  | .osc3octave => some (sigSpec 1)
  | .osc2detune => some (sigSpec 1)
  | .osc3detune => some (sigSpec 1)
  | .onoff1 => some (sigSpec 1)
  | .onoff2 => some (sigSpec 1)
  | .onoff3 => some (sigSpec 1)
  | .env => some adsrSpec
  | .filterenv => some adsrSpec
  | .contouramount => some (sigSpec 1)
  | .lfof => some (sigSpec 1)
  | .modwheel => some (sigSpec 1)
  | .lfoNode => some ⟨.lfoWaveK 3, [],
      some (.mulR (.n .lfof) (.n .modwheel)), none, .c 1, .c 1⟩
  | .osc1 => some ⟨.lfoWaveK 0, [],
      some (.mulR (.mulR (.pitchOf .notes) (.n .bend)) (.n .osc1octave)),
      none, .mulR (.n .env) (.n .onoff1), .c 0⟩
  | .osc2 => some ⟨.lfoWaveK 0, [],
      some (.subR (.mulR (.mulR (.pitchOf .notes) (.n .bend)) (.n .osc2octave))
        (.n .osc2detune)),
      none, .mulR (.n .env) (.n .onoff2), .c 0⟩
  | .osc3 => some ⟨.lfoWaveK 0, [],
      some (.subR (.mulR (.mulR (.pitchOf .notes) (.n .bend)) (.n .osc3octave))
        (.n .osc3detune)),
      none, .mulR (.n .env) (.n .onoff3), .c 0⟩
  | .noise1 => some ⟨.whiteNoiseK, [], none, none, .n .env, .c 0⟩
  | .noise2 => some ⟨.pinkNoiseK, [], none, none, .n .env, .c 0⟩
  | .selector => some ⟨.selectorK, [.n .noise1, .n .noise2], none, none, .c 1, .c 0⟩
  | .mixed1 => some ⟨.mixK, [.n .osc1, .n .osc2, .n .osc3, .n .selector],
      none, none, .c 1, .c 0⟩
  | .lf1noadsr => some (moogNoAdsrSpec .mixed1)
  | .lf1adsr => some (moogAdsrSpec .mixed1)
  | .exitinput => if ov then some (panStageSpec .lf1noadsr .lf1adsr) else none
  | .mixed2 => if ov then
      some ⟨.mixK, [.n .osc1, .n .osc2, .n .osc3, .n .selector, .n .exitinput],
        none, none, .c 1, .c 0⟩
    else none
  | .lf2adsr => if ov then some (moogAdsrSpec .mixed2) else none
  | .lf2noadsr => if ov then some (moogNoAdsrSpec .mixed2) else none
  | .output => if ov then some (panStageSpec .lf2noadsr .lf2adsr)
      else some (panStageSpec .lf1noadsr .lf1adsr)

/-- Graph built by a standalone `NoiseMaker(mul, add)` (only the three noise
nodes exist; both noise sources receive the same `mul` and `add`). -/
def noiseMakerGraph (m a : Ref) : NodeId → Option NodeSpec
  | .noise1 => some ⟨.whiteNoiseK, [], none, none, m, a⟩
  | .noise2 => some ⟨.pinkNoiseK, [], none, none, m, a⟩
  | .selector => some ⟨.selectorK, [.n .noise1, .n .noise2], none, none, .c 1, .c 0⟩
  | _ => none

/-- Node identifiers an argument expression reads from. -/
def refDeps : Ref → List NodeId
  | .c _ => []
  | .n m => [m]
  | .pitchOf m => [m]
  | .velocityOf m => [m]
  | .mulR a b => refDeps a ++ refDeps b
  | .addR a b => refDeps a ++ refDeps b
  | .subR a b => refDeps a ++ refDeps b

/-- Direct dependencies of a node in the graph: all nodes read by its
inputs and by its `freq`, `res`, `mul` and `add` arguments. -/
def nodeDeps (ov : Bool) (nid : NodeId) : List NodeId :=
  match moogGraph ov nid with
  | none => []
  | some sp =>
    sp.ins.foldr (fun r acc => refDeps r ++ acc) []
      ++ (sp.freq.elim [] refDeps) ++ (sp.res.elim [] refDeps)
      ++ refDeps sp.mul ++ refDeps sp.add

/-- Length of the longest dependency chain below a node (fuelled; the graph
has 30 nodes, so fuel 40 is exact). -/
def chainLen : ℕ → Bool → NodeId → ℕ
  | 0, _, _ => 0
  | fuel + 1, ov, nid =>
    match nodeDeps ov nid with
    | [] => 0
    | ds => 1 + (ds.map (chainLen fuel ov)).foldl max 0

/-! ## Value-level model

Rational-valued mirror of the arithmetic the wiring performs.  pyo applies
a node's `mul` and `add` arguments to its raw output as `raw * mul + add`. -/

/-- Frequency of `_osc1`: `self._notes['pitch']*self._bend*self._osc1octave`. -/
def osc1freq (pitch bend oct1 : ℚ) : ℚ := pitch * bend * oct1

/-- Frequency of `_osc2`:
`self._notes['pitch']*self._bend*self._osc2octave-self._osc2detune`. -/
def osc2freq (pitch bend oct2 det2 : ℚ) : ℚ := pitch * bend * oct2 - det2

/-- Frequency of `_osc3`:
`self._notes['pitch']*self._bend*self._osc3octave-self._osc3detune`. -/
def osc3freq (pitch bend oct3 det3 : ℚ) : ℚ := pitch * bend * oct3 - det3

/-- Frequency of the modulating LFO: `self._lfof*self._modwheel`. -/
def lfoFreq (lfofVal modwheelVal : ℚ) : ℚ := lfofVal * modwheelVal

/-- Output of the modulating LFO: raw waveform sample times `mul` (default 1)
plus `add=1`. -/
def lfoOut (raw : ℚ) : ℚ := raw * 1 + 1

/-- Output of `_ladderfilter1noadsr` as a function of the filter core's raw
output and the contour amount: `mul=0.1*(1-self._contouramount), add=0`. -/
def filterNoAdsrOut (core a : ℚ) : ℚ := core * (1/10 * (1 - a)) + 0

/-- Output of `_ladderfilter1withadsrenvelope`:
`mul=1*self._contouramount, add=0`. -/
def filterAdsrOut (core a : ℚ) : ℚ := core * (1 * a) + 0

/-- Summed output of the two filter branches feeding the panner. -/
def filterStageOut (a fixedCore envCore : ℚ) : ℚ :=
  filterNoAdsrOut fixedCore a + filterAdsrOut envCore a

/-- Modelled from the spec: the filter stage the spec describes, a fixed
branch with weight `1 - a` plus an envelope branch with weight `a`. -/
def filterStageSpecOut (a fixedCore envCore : ℚ) : ℚ :=
  (1 - a) * fixedCore + a * envCore

/-- Output of one noise source given its raw sample and its `mul`/`add`
arguments (pyo convention `raw * mul + add`). -/
def noiseOut (raw m a : ℚ) : ℚ := raw * m + a

/-- Output of `NoiseMaker` as a function of the two raw noise samples, the
common `mul`/`add`, and the selector's voice control in `[0,1]`: a
continuous crossfade of the two noise sources (the external engine's
`Selector`, modelled as the linear blend; voice 0 is the first input alone,
voice 1 the second alone). -/
def noiseMakerOutVal (white pink m a voice : ℚ) : ℚ :=
  (1 - voice) * noiseOut white m a + voice * noiseOut pink m a

/-! ## Theorems -/

/-- C1: the claim that `play`, `out` and `stop` each propagate to every
owned sub-node fails on the code: `NoiseMaker.stop` calls
`self._noise1.stop()` twice and never stops `_noise2`, so after
`MiniMoog.stop()` (either overload flag) the pink-noise source is still
running while every other owned node is stopped; likewise standalone
`NoiseMaker.out` plays `_noise1` twice and leaves `_noise2` stopped.
`play` and `out` on `MiniMoog` do start every owned node. -/
theorem c1_stop_leaves_pink_noise_running :
    miniMoogStop false allOn NodeId.noise2 = true
      ∧ miniMoogStop true allOn NodeId.noise2 = true
      ∧ ((ownedNodes false).all fun n =>
          n = NodeId.noise2 || miniMoogStop false allOn n = false) = true
      ∧ ((ownedNodes true).all fun n =>
          n = NodeId.noise2 || miniMoogStop true allOn n = false) = true
      ∧ noiseMakerStop allOn NodeId.noise2 = true
      ∧ noiseMakerOut allOff NodeId.noise2 = false
      ∧ noiseMakerOut allOff NodeId.noise1 = true
      ∧ ((ownedNodes false).all fun n => miniMoogPlay false allOff n = true) = true
      ∧ ((ownedNodes true).all fun n => miniMoogPlay true allOff n = true) = true
      ∧ ((ownedNodes false).all fun n => miniMoogOut false allOff n = true) = true
      ∧ ((ownedNodes true).all fun n => miniMoogOut true allOff n = true) = true := by
  decide

/-- C2 counterexample: at overload = 2 the constructor does raise the
configuration error, but contrary to the claim it has already instantiated
audio-producing nodes — the oscillators, both envelopes, the noise sources,
the mixer and the first filter pair are all created before the check. -/
theorem c2_counterexample :
    (miniMoogInit (PyVal.int 2)).2 = some overloadErrMsg
      ∧ (miniMoogInit (PyVal.int 2)).1.filter isAudioNode ≠ []
      ∧ NodeId.osc1 ∈ (miniMoogInit (PyVal.int 2)).1
      ∧ NodeId.lf1adsr ∈ (miniMoogInit (PyVal.int 2)).1 := by
  decide

/-- C2 (amended): for every overload value numerically equal to neither 0
nor 1, construction raises the `ValueError` and aborts — the output panner
and the second mixer/filter stage are never instantiated — but the nodes
built before the check (controls, envelopes, LFO, oscillators, noise
generator, mixer, first filter pair) have already been created. -/
theorem c2_invalid_overload (v : PyVal)
    (h0 : pyEq v (.int 0) = false) (h1 : pyEq v (.int 1) = false) :
    (miniMoogInit v).2 = some overloadErrMsg
      ∧ (miniMoogInit v).1 = preBranchNodes
      ∧ NodeId.output ∉ (miniMoogInit v).1
      ∧ NodeId.mixed2 ∉ (miniMoogInit v).1
      ∧ NodeId.osc1 ∈ (miniMoogInit v).1 := by
  have hinit : miniMoogInit v = (preBranchNodes, some overloadErrMsg) := by
    unfold miniMoogInit
    rw [h0, h1]
    exact rfl
  rw [hinit]
  exact ⟨rfl, rfl, by decide, by decide, by decide⟩

/-- C2 witness: the string "on" is numerically equal to neither 0 nor 1. -/
theorem c2_invalid_overload_witness :
    (miniMoogInit (PyVal.str "on")).2 = some overloadErrMsg
      ∧ (miniMoogInit (PyVal.str "on")).1 = preBranchNodes
      ∧ NodeId.output ∉ (miniMoogInit (PyVal.str "on")).1
      ∧ NodeId.mixed2 ∉ (miniMoogInit (PyVal.str "on")).1
      ∧ NodeId.osc1 ∈ (miniMoogInit (PyVal.str "on")).1 :=
  c2_invalid_overload (PyVal.str "on") rfl rfl

/-- C3 counterexample: at contour amount 0 with fixed-branch core 1 and
envelope-branch core 0, the filter stage outputs 1/10, not the 1 the
claimed weights `1 − a` and `a` would give: the fixed branch's weight is
`0.1·(1 − a)`, and at a = 0 the two weights sum to 1/10, not 1. -/
theorem c3_counterexample :
    filterStageOut 0 1 0 = 1/10
      ∧ filterStageSpecOut 0 1 0 = 1
      ∧ filterStageOut 0 1 0 ≠ filterStageSpecOut 0 1 0 := by
  refine ⟨?_, ?_, ?_⟩ <;>
    norm_num [filterStageOut, filterStageSpecOut, filterNoAdsrOut, filterAdsrOut]

/-- C3 (amended): the filter stage output is the sum of the fixed-cutoff
branch weighted `0.1·(1 − a)` and the envelope-driven branch weighted `a`;
contour amount 0 yields output driven entirely by the fixed branch (at gain
0.1) and contour amount 1 entirely by the envelope branch, but the two
weights sum to `0.1 + 0.9·a`, which equals 1 only at `a = 1`. -/
theorem c3_filter_blend (a fixedCore envCore : ℚ) :
    filterStageOut a fixedCore envCore = 1/10 * (1 - a) * fixedCore + a * envCore
      ∧ filterStageOut 0 fixedCore envCore = 1/10 * fixedCore
      ∧ filterStageOut 1 fixedCore envCore = envCore
      ∧ 1/10 * (1 - a) + 1 * a = 1/10 + 9/10 * a := by
  refine ⟨?_, ?_, ?_, ?_⟩ <;>
    simp [filterStageOut, filterNoAdsrOut, filterAdsrOut] <;> ring

/-- C4: with equal octave multipliers, oscillators 2 and 3 sit exactly
their detune control value below oscillator 1 in frequency — an additive
offset, the same for every pitch — and detune 0 gives unison with
oscillator 1. -/
theorem c4_pitch_path (pitch bend oct1 oct2 oct3 det2 det3 : ℚ)
    (h2 : oct2 = oct1) (h3 : oct3 = oct1) :
    osc1freq pitch bend oct1 - osc2freq pitch bend oct2 det2 = det2
      ∧ osc1freq pitch bend oct1 - osc3freq pitch bend oct3 det3 = det3
      ∧ (det2 = 0 → osc2freq pitch bend oct2 det2 = osc1freq pitch bend oct1)
      ∧ (det3 = 0 → osc3freq pitch bend oct3 det3 = osc1freq pitch bend oct1) := by
  subst h2; subst h3
  unfold osc1freq osc2freq osc3freq
  exact ⟨by ring, by ring, fun h => by rw [h]; ring, fun h => by rw [h]; ring⟩

/-- C4 witness: pitch 220, bend 1, octave 2 on all oscillators, detune 3
and 5. -/
theorem c4_pitch_path_witness :
    osc1freq 220 1 2 - osc2freq 220 1 2 3 = 3
      ∧ osc1freq 220 1 2 - osc3freq 220 1 2 5 = 5
      ∧ ((3 : ℚ) = 0 → osc2freq 220 1 2 3 = osc1freq 220 1 2)
      ∧ ((5 : ℚ) = 0 → osc3freq 220 1 2 5 = osc1freq 220 1 2) :=
  c4_pitch_path 220 1 2 2 2 3 5 rfl rfl

/-- C5: with overload on, the second stage is strictly downstream of the
first — the second mixer takes the first pair's panned, LFO-modulated
output (`exitinput`, wired exactly like the overload-off final output) as
one of its inputs, the first filter pair is still present and unchanged,
and the longest dependency chain to the final output is strictly longer
than with overload off. -/
theorem c5_overload_downstream :
    moogGraph true NodeId.exitinput = moogGraph false NodeId.output
      ∧ moogGraph true NodeId.exitinput = some (panStageSpec .lf1noadsr .lf1adsr)
      ∧ Ref.n NodeId.exitinput ∈ (moogGraph true NodeId.mixed2).elim ([] : List Ref) NodeSpec.ins
      ∧ moogGraph true NodeId.lf1noadsr = moogGraph false NodeId.lf1noadsr
      ∧ moogGraph true NodeId.lf1adsr = moogGraph false NodeId.lf1adsr
      ∧ moogGraph false NodeId.output = some (panStageSpec .lf1noadsr .lf1adsr)
      ∧ moogGraph true NodeId.output = some (panStageSpec .lf2noadsr .lf2adsr)
      ∧ chainLen 40 false NodeId.output < chainLen 40 true NodeId.output := by
  refine ⟨rfl, rfl, ?_, rfl, rfl, rfl, rfl, by decide⟩
  show Ref.n NodeId.exitinput ∈
    [Ref.n NodeId.osc1, Ref.n NodeId.osc2, Ref.n NodeId.osc3,
     Ref.n NodeId.selector, Ref.n NodeId.exitinput]
  decide

/-- C6: under either overload flag, the `mul` of each of the three
oscillators is the product of the same envelope node `env` with that
oscillator's own on/off gain, and the amplitude envelope and the
filter-contour envelope are two distinct node instances, each an ADSR
triggered by the `Notein` velocity stream. -/
theorem c6_shared_amp_envelope :
    ∀ ov : Bool,
      (moogGraph ov NodeId.osc1).elim False
        (fun sp => sp.mul = Ref.mulR (Ref.n NodeId.env) (Ref.n NodeId.onoff1))
      ∧ (moogGraph ov NodeId.osc2).elim False
        (fun sp => sp.mul = Ref.mulR (Ref.n NodeId.env) (Ref.n NodeId.onoff2))
      ∧ (moogGraph ov NodeId.osc3).elim False
        (fun sp => sp.mul = Ref.mulR (Ref.n NodeId.env) (Ref.n NodeId.onoff3))
      ∧ moogGraph ov NodeId.env = some adsrSpec
      ∧ moogGraph ov NodeId.filterenv = some adsrSpec
      ∧ NodeId.env ≠ NodeId.filterenv
      ∧ adsrSpec.ins = [Ref.velocityOf NodeId.notes] := by
  intro ov
  cases ov <;> exact ⟨rfl, rfl, rfl, rfl, rfl, by decide, rfl⟩

/-- C7: under either overload flag, the modulating LFO's frequency argument
is the product of the base-rate signal and the mod-wheel signal and its
`add` is the constant 1; the final panner's input (and, with overload on,
the `exitinput` panner's input) multiplies the sum of the two filter
branches by that LFO, whose output at a raw waveform sample `r` is `r + 1`
— unity gain at the waveform's center 0. -/
theorem c7_lfo_modulation :
    (∀ ov : Bool, moogGraph ov NodeId.lfoNode = some
      ⟨.lfoWaveK 3, [], some (.mulR (.n .lfof) (.n .modwheel)), none, .c 1, .c 1⟩)
      ∧ (moogGraph false NodeId.output).elim False
        (fun sp => sp.ins =
          [.mulR (.addR (.n .lf1noadsr) (.n .lf1adsr)) (.n .lfoNode)])
      ∧ (moogGraph true NodeId.exitinput).elim False
        (fun sp => sp.ins =
          [.mulR (.addR (.n .lf1noadsr) (.n .lf1adsr)) (.n .lfoNode)])
      ∧ (moogGraph true NodeId.output).elim False
        (fun sp => sp.ins =
          [.mulR (.addR (.n .lf2noadsr) (.n .lf2adsr)) (.n .lfoNode)])
      ∧ (∀ l m : ℚ, lfoFreq l m = l * m)
      ∧ (∀ r : ℚ, lfoOut r = r + 1)
      ∧ lfoOut 0 = 1 := by
  refine ⟨fun ov => ?_, rfl, rfl, rfl, fun l m => rfl, fun r => ?_, ?_⟩
  · cases ov <;> rfl
  · unfold lfoOut; ring
  · unfold lfoOut; ring

/-- C8: a `NoiseMaker`'s output node is the selector over exactly two
inputs — the uncorrelated broadband (white) source first and the pink
source second — and the crossfade at voice 0 is the white source's output
alone, at voice 1 the pink source's output alone. -/
theorem c8_noise_blend :
    (∀ m a : Ref,
      noiseMakerGraph m a NodeId.selector = some
        ⟨.selectorK, [.n .noise1, .n .noise2], none, none, .c 1, .c 0⟩
      ∧ (noiseMakerGraph m a NodeId.noise1).elim False
        (fun sp => sp.kind = NKind.whiteNoiseK)
      ∧ (noiseMakerGraph m a NodeId.noise2).elim False
        (fun sp => sp.kind = NKind.pinkNoiseK))
      ∧ (∀ w p m a : ℚ,
          noiseMakerOutVal w p m a 0 = noiseOut w m a
          ∧ noiseMakerOutVal w p m a 1 = noiseOut p m a) := by
  constructor
  · exact fun m a => ⟨rfl, rfl, rfl⟩
  · intro w p m a
    constructor <;> (unfold noiseMakerOutVal; ring)

/-- C9: `MiniMoog` constructs its noise generator with the amplitude
envelope node as `mul` and the default `add` 0, and the noise generator's
wiring applies that same `mul` and `add` to both of its internal sources
identically (the MiniMoog graph's noise nodes coincide with a standalone
`NoiseMaker(env, 0)`); consequently, when the envelope value is 0 the
noise output is 0 for every sample pair and voice setting. -/
theorem c9_noise_env_gated :
    (∀ ov : Bool,
      moogGraph ov NodeId.noise1 = noiseMakerGraph (.n .env) (.c 0) NodeId.noise1
      ∧ moogGraph ov NodeId.noise2 = noiseMakerGraph (.n .env) (.c 0) NodeId.noise2
      ∧ moogGraph ov NodeId.selector = noiseMakerGraph (.n .env) (.c 0) NodeId.selector
      ∧ (moogGraph ov NodeId.noise1).elim False
        (fun sp => sp.mul = Ref.n NodeId.env ∧ sp.add = Ref.c 0)
      ∧ (moogGraph ov NodeId.noise2).elim False
        (fun sp => sp.mul = Ref.n NodeId.env ∧ sp.add = Ref.c 0))
      ∧ (∀ w p v : ℚ, noiseMakerOutVal w p 0 0 v = 0) := by
  constructor
  · intro ov
    cases ov <;> exact ⟨rfl, rfl, rfl, ⟨rfl, rfl⟩, ⟨rfl, rfl⟩⟩
  · intro w p v
    unfold noiseMakerOutVal noiseOut; ring

/-- C10: the overload check is numeric equality — construction succeeds
exactly when the value's Python numeric value is 0 or 1, so the booleans
`False`/`True` and the floats `0.0`/`1.0` are accepted, while 2, −1 and
the string "on" are rejected. -/
theorem c10_numeric_overload_check :
    (∀ v : PyVal, (miniMoogInit v).2 = none ↔ v.toNum = some 0 ∨ v.toNum = some 1)
      ∧ (miniMoogInit (PyVal.bool false)).2 = none
      ∧ (miniMoogInit (PyVal.bool true)).2 = none
      ∧ (miniMoogInit (PyVal.float 0)).2 = none
      ∧ (miniMoogInit (PyVal.float 1)).2 = none
      ∧ (miniMoogInit (PyVal.int 2)).2 = some overloadErrMsg
      ∧ (miniMoogInit (PyVal.int (-1))).2 = some overloadErrMsg
      ∧ (miniMoogInit (PyVal.str "on")).2 = some overloadErrMsg := by
  refine ⟨fun v => ?_, rfl, rfl, rfl, rfl, rfl, rfl, rfl⟩
  rcases v with n | b | q | s
  · by_cases h0 : (n : ℚ) = 0
    · simp [miniMoogInit, pyEq, PyVal.toNum, h0]
    · by_cases h1 : (n : ℚ) = 1
      · simp [miniMoogInit, pyEq, PyVal.toNum, h0, h1]
      · simp [miniMoogInit, pyEq, PyVal.toNum, h0, h1]
  · cases b <;> simp [miniMoogInit, pyEq, PyVal.toNum]
  · by_cases h0 : q = 0
    · simp [miniMoogInit, pyEq, PyVal.toNum, h0]
    · by_cases h1 : q = 1
      · simp [miniMoogInit, pyEq, PyVal.toNum, h0, h1]
      · simp [miniMoogInit, pyEq, PyVal.toNum, h0, h1]
  · simp [miniMoogInit, pyEq, PyVal.toNum]

end Minimoog
